import Mathlib

/-!
Verification of the pentacube wireframe renderer (`main/lvgl_demo_ui.c` and the
fallback variant of `draw_pentacube_frame`).

Modelling conventions:
* C `int` values become `Int` (or `Nat` where the source keeps them
  non-negative, e.g. the PRNG seed, which is masked into `[0, 2^31)`);
  the wrap-around of 32-bit arithmetic in `simple_rand` is made explicit
  with `% 2^32` before the `& 0x7fffffff` mask.
* C `float` state (offsets, morph progress, depth) becomes `ℚ`; the float
  literals `0.6f`, `0.05f`, `15.0f`, `180.0f`, `200.0f` become the exact
  rationals `3/5`, `1/20`, `15`, `180`, `200`.  Every property proved below
  depends only on comparisons and clamping, not on rounding of these steps.
* The per-frame edge set (a C array `edge_t edge_set[]` plus a count) becomes
  a `List (Int × Int)`; appending at the tail models
  `edge_set[*edge_count] = ...; (*edge_count)++`.
* The mutable file-scope animation globals become the fields of `AnimState`,
  and `update_animation_state` becomes a pure step function built from one
  sub-step per block of the C function, composed in source order.
-/

/-- `#define MAX_EDGE_SET 256` -/
def MAX_EDGE_SET : Nat := 256

/-- `#define PENTACUBE_COUNT 29` (from `pentacubes.h`) -/
def PENTACUBE_COUNT : Nat := 29

/-- `#define BASE_SIZE 8` -/
def BASE_SIZE : ℚ := 8

/-- `simple_rand`: the seed is updated by
`seed = (seed * 1103515245 + 12345) & 0x7fffffff` and returned.  The 32-bit
wrap of the multiply-add is the `% 2^32`; the mask keeps the low 31 bits. -/
def simple_rand (seed : Nat) : Nat :=
  ((seed * 1103515245 + 12345) % 2 ^ 32) &&& 0x7fffffff

/-- `random_pentacube`: `simple_rand() % PENTACUBE_COUNT`. -/
def random_pentacube (seed : Nat) : Nat :=
  simple_rand seed % PENTACUBE_COUNT

/-- `add_edge_to_set`: capacity check, canonicalisation with the smaller
index first, linear duplicate scan, then append.  Returns the new set
together with the C function's boolean result. -/
def add_edge_to_set (edge_set : List (Int × Int)) (v1 v2 : Int) :
    List (Int × Int) × Bool :=
  if MAX_EDGE_SET ≤ edge_set.length then (edge_set, false)
  else
    let p := if v1 > v2 then (v2, v1) else (v1, v2)
    if edge_set.any (fun e => e.1 == p.1 && e.2 == p.2) then (edge_set, true)
    else (edge_set ++ [p], true)

/-- The canonical (smaller index first) form of an unordered vertex pair,
as produced by the swap at the top of `add_edge_to_set`. -/
def canonical_pair (v1 v2 : Int) : Int × Int :=
  if v1 > v2 then (v2, v1) else (v1, v2)

/-- Folding a sequence of insertions over the edge set, as the per-face loops
in `draw_pentacube_frame` do (the boolean result is discarded there). -/
def insert_edges (edge_set : List (Int × Int)) (ps : List (Int × Int)) :
    List (Int × Int) :=
  ps.foldl (fun t p => (add_edge_to_set t p.1 p.2).1) edge_set

/-- `is_face_visible_debug`: the 2D screen-space cross product of the edge
vectors `(v1−v0)` and `(v2−v0)`, returned through `*cross_out`, with the
boolean `cross > 0` as the classification result. -/
def is_face_visible_debug (screen_x0 screen_y0 screen_x1 screen_y1
    screen_x2 screen_y2 : Int) : Bool × Int :=
  let edge1_x := screen_x1 - screen_x0
  let edge1_y := screen_y1 - screen_y0
  let edge2_x := screen_x2 - screen_x0
  let edge2_y := screen_y2 - screen_y0
  let cross := edge1_x * edge2_y - edge1_y * edge2_x
  (decide (cross > 0), cross)

/-- The consecutive vertex pairs of a face loop, wrap-around included:
`(face[i], face[(i+1) % face_vert_count])` for each `i`. -/
def cyclic_pairs (face : List Int) : List (Int × Int) :=
  face.zip (face.rotate 1)

/-- One iteration of the face loop of the culling `draw_pentacube_frame`
(lines 238-274): classify the face by its first three vertices' projected
coordinates and, only if visible, insert every loop edge into the edge set.
`scr` is the per-frame `screen_coords` buffer, indexed by vertex index. -/
def process_face (scr : Int → Int × Int) (face : List Int)
    (edge_set : List (Int × Int)) : List (Int × Int) :=
  match face with
  | v0 :: v1 :: v2 :: _ =>
    let c0 := scr v0
    let c1 := scr v1
    let c2 := scr v2
    let vis := is_face_visible_debug c0.1 c0.2 c1.1 c1.2 c2.1 c2.2
    if vis.1 then insert_edges edge_set (cyclic_pairs face) else edge_set
  | _ => edge_set

/-- The bounds check of the fallback `draw_pentacube_frame`
(`v1_idx >= pentacube->vertex_count || v2_idx >= pentacube->vertex_count`). -/
def edge_out_of_range (vertex_count : Int) (e : Int × Int) : Bool :=
  decide (vertex_count ≤ e.1) || decide (vertex_count ≤ e.2)

/-- The edge loop of the fallback (non-culled) `draw_pentacube_frame`:
walks every edge of the mesh in order; an edge failing the bounds check is
logged and skipped (`continue`), every other edge is drawn.  Returns the
drawn edges and the logged edges, each in processing order. -/
def draw_edges_fallback (vertex_count : Int) (edges : List (Int × Int)) :
    List (Int × Int) × List (Int × Int) :=
  edges.foldl (fun acc e =>
    if edge_out_of_range vertex_count e then (acc.1, acc.2 ++ [e])
    else (acc.1 ++ [e], acc.2)) ([], [])

/-- A vertex index is valid for a mesh iff it is non-negative and below the
vertex count (what indexing `verts[v_idx]` actually requires). -/
def valid_vertex_index (vertex_count : Int) (i : Int) : Prop :=
  0 ≤ i ∧ i < vertex_count

instance (vertex_count i : Int) : Decidable (valid_vertex_index vertex_count i) := by
  unfold valid_vertex_index
  infer_instance

/-- `LV_OPA_COVER` (255). -/
def LV_OPA_COVER : ℚ := 255

/-- `(lv_opa_t)(LV_OPA_COVER * morphing_progress)`: the float product is
truncated to an unsigned byte; for `0 ≤ p` truncation is the floor. -/
def frame_opacity (p : ℚ) : Nat :=
  Int.toNat ⌊LV_OPA_COVER * p⌋

/-- The draw loop over the visible edge set (lines 283-301): each edge is
looked up in the `screen_coords` buffer and drawn with the frame's opacity. -/
def draw_visible_edges (scr : Int → Int × Int) (edge_set : List (Int × Int))
    (p : ℚ) : List (((Int × Int) × (Int × Int)) × Nat) :=
  edge_set.map (fun e => ((scr e.1, scr e.2), frame_opacity p))

/-- The file-scope mutable animation state of `lvgl_demo_ui.c`
(lines 30-42 and the `simple_rand` seed). -/
@[ext]
structure AnimState where
  seed : Nat
  z_position : ℚ
  x_offset : ℚ
  x_direction : ℚ
  direction_change_counter : Int
  rotation_axes : Nat × Nat × Nat
  axis_change_counter : Int
  current_pentacube : Nat
  next_pentacube : Nat
  morphing_progress : ℚ
  is_morphing : Bool
  last_logged_pentacube : Int
deriving DecidableEq

/-- Lines 134-140: the direction-reversal counter increments; once it
exceeds 8 a pseudo-random draw may flip `x_direction` and the counter
resets to 0. -/
def dir_step (s : AnimState) : AnimState :=
  let c := s.direction_change_counter + 1
  if c > 8 then
    let r := simple_rand s.seed
    { s with seed := r,
             x_direction := if r % 3 = 0 then -s.x_direction else s.x_direction,
             direction_change_counter := 0 }
  else { s with direction_change_counter := c }

/-- Lines 142-150: `x_offset += x_direction * 0.6f` followed by the clamp
to `[-15, 15]` that also forces the direction sign inward. -/
def offset_step (s : AnimState) : AnimState :=
  let x := s.x_offset + s.x_direction * (3 / 5)
  if x > 15 then { s with x_offset := 15, x_direction := -1 }
  else if x < -15 then { s with x_offset := -15, x_direction := 1 }
  else { s with x_offset := x }

/-- Lines 152-154: depth from normalised lateral offset, quadratic falloff. -/
def z_step (s : AnimState) : AnimState :=
  let norm_x := |s.x_offset| / 15
  { s with z_position := norm_x * norm_x * 200 }

/-- Lines 156-162: morph trigger.  When the depth exceeds 180 and no morph
is running: enter morphing, reset progress to 0, advance the current mesh,
draw a new next mesh, reset the logging guard. -/
def morph_trigger_step (s : AnimState) : AnimState :=
  if 180 < s.z_position ∧ s.is_morphing = false then
    let r := simple_rand s.seed
    { s with is_morphing := true,
             morphing_progress := 0,
             current_pentacube := s.next_pentacube,
             next_pentacube := r % PENTACUBE_COUNT,
             seed := r,
             last_logged_pentacube := -1 }
  else s

/-- Lines 164-170: while morphing, progress advances by `0.05f`; on
reaching or exceeding 1.0 it is clamped to 1.0 and morphing ends. -/
def morph_progress_step (s : AnimState) : AnimState :=
  if s.is_morphing then
    let p := s.morphing_progress + 1 / 20
    if 1 ≤ p then { s with is_morphing := false, morphing_progress := 1 }
    else { s with morphing_progress := p }
  else s

/-- Lines 172-178: every time the axis counter exceeds 16, three
pseudo-random draws re-enable or disable the three rotation axes. -/
def axis_step (s : AnimState) : AnimState :=
  let c := s.axis_change_counter + 1
  if c > 16 then
    let r1 := simple_rand s.seed
    let r2 := simple_rand r1
    let r3 := simple_rand r2
    { s with rotation_axes := (r1 % 2, r2 % 2, r3 % 2),
             seed := r3,
             axis_change_counter := 0 }
  else { s with axis_change_counter := c }

/-- `update_animation_state`: the six blocks in source order. -/
def update_animation_state (s : AnimState) : AnimState :=
  axis_step (morph_progress_step (morph_trigger_step (z_step (offset_step (dir_step s)))))

/-- The state given by the file-scope initialisers (lines 30-42) with the
initial `simple_rand` seed 12345. -/
def initial_state : AnimState where
  seed := 12345
  z_position := 0
  x_offset := 0
  x_direction := 1
  direction_change_counter := 0
  rotation_axes := (1, 0, 0)
  axis_change_counter := 0
  current_pentacube := 0
  next_pentacube := 1
  morphing_progress := 0
  is_morphing := false
  last_logged_pentacube := -1

/-- `get_pentacube_center_x`: mean of the x coordinates of a mesh's
vertices (lines 325-337), over the vertex list of the mesh. -/
def get_pentacube_center_x (verts : List (ℚ × ℚ × ℚ)) : ℚ :=
  (verts.foldl (fun sum v => sum + v.1) 0) / verts.length

/-- Line 363 of `example_lvgl_demo_ui`:
`x_offset = -get_pentacube_center_x(current_pentacube) * BASE_SIZE`. -/
def startup_x_offset (verts : List (ℚ × ℚ × ℚ)) : ℚ :=
  -(get_pentacube_center_x verts) * BASE_SIZE

/-- The startup state established by `example_lvgl_demo_ui` before its
first `draw_pentacube_frame` call (lines 360-363): both mesh indices are
drawn from the generator and the lateral offset is centred on the initial
mesh's centroid, whose vertex list is `verts`. -/
def startup_state (verts : List (ℚ × ℚ × ℚ)) : AnimState :=
  let r1 := simple_rand initial_state.seed
  let r2 := simple_rand r1
  { initial_state with
      current_pentacube := r1 % PENTACUBE_COUNT,
      next_pentacube := r2 % PENTACUBE_COUNT,
      seed := r2,
      x_offset := startup_x_offset verts }

/-- Modelled from the spec: the mesh table `pentacube_data` lives in the
auto-generated `main/pentacubes.c`, which is not among the sources; the spec
records only that each mesh's vertices are 3 non-negative object-local
floats and that the 29 pentacubes (5-cube polycubes, exported with minimal
vertex sets) are among them.  This is the vertex list of the straight
("I") pentacube, a 1×1×5 cuboid laid along the x axis: 8 corner vertices,
all coordinates non-negative. -/
def I_pentacube_vertices : List (ℚ × ℚ × ℚ) :=
  [(0, 0, 0), (0, 0, 1), (0, 1, 0), (0, 1, 1),
   (5, 0, 0), (5, 0, 1), (5, 1, 0), (5, 1, 1)]

-- Basic facts about `add_edge_to_set`.

lemma add_edge_to_set_eq (edge_set : List (Int × Int)) (v1 v2 : Int) :
    add_edge_to_set edge_set v1 v2 =
      if MAX_EDGE_SET ≤ edge_set.length then (edge_set, false)
      else if edge_set.any
          (fun e => e.1 == (canonical_pair v1 v2).1 &&
                    e.2 == (canonical_pair v1 v2).2) then (edge_set, true)
      else (edge_set ++ [canonical_pair v1 v2], true) := by
  rfl

lemma canonical_pair_comm (v1 v2 : Int) :
    canonical_pair v1 v2 = canonical_pair v2 v1 := by
  unfold canonical_pair
  rcases lt_trichotomy v1 v2 with h | h | h
  · rw [if_neg (by omega), if_pos (by omega)]
  · simp [h]
  · rw [if_pos (by omega), if_neg (by omega)]

lemma add_edge_to_set_comm (edge_set : List (Int × Int)) (v1 v2 : Int) :
    add_edge_to_set edge_set v1 v2 = add_edge_to_set edge_set v2 v1 := by
  rw [add_edge_to_set_eq, add_edge_to_set_eq, canonical_pair_comm]

lemma any_beq_eq_true_iff_mem (s : List (Int × Int)) (p : Int × Int) :
    (s.any fun e => e.1 == p.1 && e.2 == p.2) = true ↔ p ∈ s := by
  simp only [List.any_eq_true, Bool.and_eq_true, beq_iff_eq]
  constructor
  · rintro ⟨e, he, h1, h2⟩
    rwa [show p = e from Prod.ext h1.symm h2.symm]
  · intro hp
    exact ⟨p, hp, rfl, rfl⟩

/-- The set part of `add_edge_to_set` either leaves the set unchanged or
appends the canonical pair at the tail: existing entries are never touched. -/
lemma add_edge_to_set_fst (edge_set : List (Int × Int)) (v1 v2 : Int) :
    (add_edge_to_set edge_set v1 v2).1 = edge_set ∨
    (add_edge_to_set edge_set v1 v2).1 = edge_set ++ [canonical_pair v1 v2] := by
  rw [add_edge_to_set_eq]
  by_cases hc : MAX_EDGE_SET ≤ edge_set.length
  · simp [hc]
  · by_cases hm : (edge_set.any fun e =>
        e.1 == (canonical_pair v1 v2).1 && e.2 == (canonical_pair v1 v2).2) = true
    · simp [hc, hm]
    · simp [hc, hm]

lemma add_edge_to_set_length_le (edge_set : List (Int × Int)) (v1 v2 : Int)
    (h : edge_set.length ≤ MAX_EDGE_SET) :
    (add_edge_to_set edge_set v1 v2).1.length ≤ MAX_EDGE_SET := by
  rw [add_edge_to_set_eq]
  by_cases hc : MAX_EDGE_SET ≤ edge_set.length
  · simpa [hc]
  · by_cases hm : (edge_set.any fun e =>
        e.1 == (canonical_pair v1 v2).1 && e.2 == (canonical_pair v1 v2).2) = true
    · simpa [hc, hm]
    · rw [if_neg hc, if_neg hm]
      simp only [List.length_append, List.length_cons, List.length_nil]
      omega

lemma add_edge_to_set_full (edge_set : List (Int × Int)) (v1 v2 : Int)
    (h : MAX_EDGE_SET ≤ edge_set.length) :
    (add_edge_to_set edge_set v1 v2).1 = edge_set := by
  rw [add_edge_to_set_eq, if_pos h]

-- Characterisations of the individual blocks of `update_animation_state`.

lemma dir_step_quiet (s : AnimState) (h : s.direction_change_counter + 1 ≤ 8) :
    dir_step s = { s with direction_change_counter := s.direction_change_counter + 1 } := by
  unfold dir_step
  rw [if_neg (by omega)]

lemma dir_step_fire (s : AnimState) (h : 8 < s.direction_change_counter + 1) :
    dir_step s =
      { s with seed := simple_rand s.seed
               x_direction := if simple_rand s.seed % 3 = 0 then -s.x_direction
                              else s.x_direction
               direction_change_counter := 0 } := by
  unfold dir_step
  rw [if_pos (by omega)]

lemma offset_step_mid (s : AnimState)
    (h1 : s.x_offset + s.x_direction * (3 / 5) ≤ 15)
    (h2 : -15 ≤ s.x_offset + s.x_direction * (3 / 5)) :
    offset_step s = { s with x_offset := s.x_offset + s.x_direction * (3 / 5) } := by
  unfold offset_step
  rw [if_neg (by simpa using h1), if_neg (by simpa using h2)]

lemma offset_step_hi (s : AnimState)
    (h : 15 < s.x_offset + s.x_direction * (3 / 5)) :
    offset_step s = { s with x_offset := 15, x_direction := -1 } := by
  unfold offset_step
  rw [if_pos (by simpa using h)]

lemma offset_step_lo (s : AnimState)
    (h : s.x_offset + s.x_direction * (3 / 5) < -15) :
    offset_step s = { s with x_offset := -15, x_direction := 1 } := by
  unfold offset_step
  rw [if_neg (by simp only [gt_iff_lt, not_lt]; linarith), if_pos (by simpa using h)]

lemma z_step_eq (s : AnimState) :
    z_step s = { s with z_position := (|s.x_offset| / 15) * (|s.x_offset| / 15) * 200 } := by
  rfl

lemma morph_trigger_step_quiet (s : AnimState)
    (h : ¬ (180 < s.z_position ∧ s.is_morphing = false)) :
    morph_trigger_step s = s := by
  unfold morph_trigger_step
  rw [if_neg h]

lemma morph_trigger_step_fire (s : AnimState)
    (h1 : 180 < s.z_position) (h2 : s.is_morphing = false) :
    morph_trigger_step s =
      { s with is_morphing := true
               morphing_progress := 0
               current_pentacube := s.next_pentacube
               next_pentacube := simple_rand s.seed % PENTACUBE_COUNT
               seed := simple_rand s.seed
               last_logged_pentacube := -1 } := by
  unfold morph_trigger_step
  rw [if_pos ⟨h1, h2⟩]

lemma morph_progress_step_quiet (s : AnimState) (h : s.is_morphing = false) :
    morph_progress_step s = s := by
  unfold morph_progress_step
  rw [h]
  rfl

lemma morph_progress_step_advance (s : AnimState) (h : s.is_morphing = true)
    (h2 : s.morphing_progress + 1 / 20 < 1) :
    morph_progress_step s = { s with morphing_progress := s.morphing_progress + 1 / 20 } := by
  unfold morph_progress_step
  rw [h]
  simp only [if_true]
  rw [if_neg (by simpa using h2)]

lemma morph_progress_step_clamp (s : AnimState) (h : s.is_morphing = true)
    (h2 : 1 ≤ s.morphing_progress + 1 / 20) :
    morph_progress_step s = { s with is_morphing := false, morphing_progress := 1 } := by
  unfold morph_progress_step
  rw [h]
  simp only [if_true]
  rw [if_pos h2]

lemma axis_step_quiet (s : AnimState) (h : s.axis_change_counter + 1 ≤ 16) :
    axis_step s = { s with axis_change_counter := s.axis_change_counter + 1 } := by
  unfold axis_step
  rw [if_neg (by omega)]

lemma axis_step_fire (s : AnimState) (h : 16 < s.axis_change_counter + 1) :
    axis_step s =
      { s with rotation_axes := (simple_rand s.seed % 2,
                 simple_rand (simple_rand s.seed) % 2,
                 simple_rand (simple_rand (simple_rand s.seed)) % 2)
               seed := simple_rand (simple_rand (simple_rand s.seed))
               axis_change_counter := 0 } := by
  unfold axis_step
  rw [if_pos (by omega)]

-- Field-preservation facts for the sub-steps.

lemma dir_step_fields (s : AnimState) :
    (dir_step s).x_offset = s.x_offset ∧
    (dir_step s).z_position = s.z_position ∧
    (dir_step s).morphing_progress = s.morphing_progress ∧
    (dir_step s).is_morphing = s.is_morphing := by
  by_cases h : 8 < s.direction_change_counter + 1
  · rw [dir_step_fire s h]
    exact ⟨rfl, rfl, rfl, rfl⟩
  · rw [dir_step_quiet s (by omega)]
    exact ⟨rfl, rfl, rfl, rfl⟩

lemma offset_step_fields (s : AnimState) :
    (offset_step s).direction_change_counter = s.direction_change_counter ∧
    (offset_step s).seed = s.seed ∧
    (offset_step s).morphing_progress = s.morphing_progress ∧
    (offset_step s).is_morphing = s.is_morphing := by
  by_cases h1 : 15 < s.x_offset + s.x_direction * (3 / 5)
  · rw [offset_step_hi s h1]
    exact ⟨rfl, rfl, rfl, rfl⟩
  · by_cases h2 : s.x_offset + s.x_direction * (3 / 5) < -15
    · rw [offset_step_lo s h2]
      exact ⟨rfl, rfl, rfl, rfl⟩
    · rw [offset_step_mid s (by linarith) (by linarith)]
      exact ⟨rfl, rfl, rfl, rfl⟩

lemma z_step_fields (s : AnimState) :
    (z_step s).direction_change_counter = s.direction_change_counter ∧
    (z_step s).seed = s.seed ∧
    (z_step s).x_offset = s.x_offset ∧
    (z_step s).x_direction = s.x_direction ∧
    (z_step s).morphing_progress = s.morphing_progress ∧
    (z_step s).is_morphing = s.is_morphing := by
  exact ⟨rfl, rfl, rfl, rfl, rfl, rfl⟩

lemma morph_trigger_step_fields (s : AnimState) :
    (morph_trigger_step s).x_offset = s.x_offset ∧
    (morph_trigger_step s).x_direction = s.x_direction ∧
    (morph_trigger_step s).direction_change_counter = s.direction_change_counter ∧
    (morph_trigger_step s).z_position = s.z_position := by
  by_cases h : 180 < s.z_position ∧ s.is_morphing = false
  · rw [morph_trigger_step_fire s h.1 h.2]
    exact ⟨rfl, rfl, rfl, rfl⟩
  · rw [morph_trigger_step_quiet s h]
    exact ⟨rfl, rfl, rfl, rfl⟩

lemma morph_progress_step_fields (s : AnimState) :
    (morph_progress_step s).x_offset = s.x_offset ∧
    (morph_progress_step s).x_direction = s.x_direction ∧
    (morph_progress_step s).direction_change_counter = s.direction_change_counter ∧
    (morph_progress_step s).seed = s.seed ∧
    (morph_progress_step s).z_position = s.z_position := by
  cases h : s.is_morphing
  · rw [morph_progress_step_quiet s h]
    exact ⟨rfl, rfl, rfl, rfl, rfl⟩
  · by_cases h2 : 1 ≤ s.morphing_progress + 1 / 20
    · rw [morph_progress_step_clamp s h h2]
      exact ⟨rfl, rfl, rfl, rfl, rfl⟩
    · rw [morph_progress_step_advance s h (by linarith)]
      exact ⟨rfl, rfl, rfl, rfl, rfl⟩

lemma axis_step_fields (s : AnimState) :
    (axis_step s).x_offset = s.x_offset ∧
    (axis_step s).x_direction = s.x_direction ∧
    (axis_step s).direction_change_counter = s.direction_change_counter ∧
    (axis_step s).morphing_progress = s.morphing_progress ∧
    (axis_step s).is_morphing = s.is_morphing ∧
    (axis_step s).z_position = s.z_position := by
  by_cases h : 16 < s.axis_change_counter + 1
  · rw [axis_step_fire s h]
    exact ⟨rfl, rfl, rfl, rfl, rfl, rfl⟩
  · rw [axis_step_quiet s (by omega)]
    exact ⟨rfl, rfl, rfl, rfl, rfl, rfl⟩

-- A tick in which no counter fires, the offset stays inside the clamp range,
-- and no morph is running or triggered: only the two counters, the offset and
-- the depth change.

lemma quiet_tick (s : AnimState)
    (hdir : s.direction_change_counter + 1 ≤ 8)
    (haxis : s.axis_change_counter + 1 ≤ 16)
    (hx : |s.x_offset + s.x_direction * (3 / 5)| ≤ 14)
    (hm : s.is_morphing = false) :
    update_animation_state s =
      { s with direction_change_counter := s.direction_change_counter + 1
               axis_change_counter := s.axis_change_counter + 1
               x_offset := s.x_offset + s.x_direction * (3 / 5)
               z_position := (|s.x_offset + s.x_direction * (3 / 5)| / 15) *
                 (|s.x_offset + s.x_direction * (3 / 5)| / 15) * 200 } := by
  have habs := abs_le.mp hx
  have habs0 := abs_nonneg (s.x_offset + s.x_direction * (3 / 5))
  unfold update_animation_state
  rw [dir_step_quiet s hdir]
  rw [offset_step_mid _
    (by
      show s.x_offset + s.x_direction * (3 / 5) ≤ 15
      linarith [habs.2])
    (by
      show -15 ≤ s.x_offset + s.x_direction * (3 / 5)
      linarith [habs.1])]
  rw [z_step_eq]
  rw [morph_trigger_step_quiet _ (by
    rintro ⟨hz, -⟩
    revert hz
    show ¬ (180 < (|s.x_offset + s.x_direction * (3 / 5)| / 15) *
      (|s.x_offset + s.x_direction * (3 / 5)| / 15) * 200)
    push_neg
    nlinarith [hx, habs0])]
  rw [morph_progress_step_quiet _ (by exact hm)]
  rw [axis_step_quiet _ (by exact haxis)]

-- The first eight ticks from the initial state are quiet ticks: the offset
-- drifts right by 0.6 per tick and both counters simply count.

lemma iterate_quiet (k : Nat) (hk : k ≤ 8) :
    update_animation_state^[k] initial_state =
      { initial_state with
          direction_change_counter := (k : Int)
          axis_change_counter := (k : Int)
          x_offset := 3 * (k : ℚ) / 5
          z_position := (3 * (k : ℚ) / 5 / 15) * (3 * (k : ℚ) / 5 / 15) * 200 } := by
  induction k with
  | zero =>
    rw [Function.iterate_zero_apply]
    refine AnimState.ext ?_ ?_ ?_ ?_ ?_ ?_ ?_ ?_ ?_ ?_ ?_ ?_ <;> norm_num [initial_state]
  | succ k ih =>
    have hk8 : k ≤ 8 := by omega
    have hkQ : (k : ℚ) ≤ 7 := by exact_mod_cast (by omega : k ≤ 7)
    have hx0 : (0 : ℚ) ≤ 3 * (k : ℚ) / 5 + 1 * (3 / 5) := by positivity
    rw [Function.iterate_succ_apply', ih hk8]
    rw [quiet_tick _
      (by
        show (k : Int) + 1 ≤ 8
        omega)
      (by
        show (k : Int) + 1 ≤ 16
        omega)
      (by
        show |3 * (k : ℚ) / 5 + initial_state.x_direction * (3 / 5)| ≤ 14
        norm_num [initial_state]
        rw [abs_of_nonneg (by positivity)]
        linarith)
      (by exact rfl)]
    refine AnimState.ext rfl ?_ ?_ rfl ?_ rfl ?_ rfl rfl rfl rfl rfl
    · simp only [initial_state]
      push_cast
      rw [abs_of_nonneg]
      · ring
      · positivity
    · simp only [initial_state]
      push_cast
      ring
    · show (k : Int) + 1 = ((k + 1 : ℕ) : Int)
      omega
    · show (k : Int) + 1 = ((k + 1 : ℕ) : Int)
      omega

-- Fold/filter characterisation of the fallback edge loop.

lemma draw_edges_fallback_aux (vc : Int) (edges d l : List (Int × Int)) :
    edges.foldl (fun acc e =>
      if edge_out_of_range vc e then (acc.1, acc.2 ++ [e])
      else (acc.1 ++ [e], acc.2)) (d, l) =
    (d ++ edges.filter (fun e => !(edge_out_of_range vc e)),
     l ++ edges.filter (fun e => edge_out_of_range vc e)) := by
  induction edges generalizing d l with
  | nil => simp
  | cons e es ih =>
    by_cases h : edge_out_of_range vc e
    · simp only [List.foldl_cons, h, if_true, ih, List.filter_cons, Bool.not_true, if_false]
      simp [List.append_assoc]
    · simp only [List.foldl_cons, h, Bool.false_eq_true, if_false, ih, List.filter_cons,
        Bool.not_false, if_true]
      simp [h, List.append_assoc]

/-- C1: a face is classified visible iff the screen-space cross product
`(v1−v0)×(v2−v0)` of its first three projected vertices is strictly
positive; the reported cross value is exactly that product; and a face whose
cross product is 0 is not visible and contributes no edges to the edge set. -/
theorem C1_culling (x0 y0 x1 y1 x2 y2 : Int) :
    ((is_face_visible_debug x0 y0 x1 y1 x2 y2).1 = true ↔
       0 < (x1 - x0) * (y2 - y0) - (y1 - y0) * (x2 - x0)) ∧
    (is_face_visible_debug x0 y0 x1 y1 x2 y2).2 =
       (x1 - x0) * (y2 - y0) - (y1 - y0) * (x2 - x0) ∧
    (∀ (scr : Int → Int × Int) (v0 v1 v2 : Int) (rest : List Int)
        (es : List (Int × Int)),
      ((scr v1).1 - (scr v0).1) * ((scr v2).2 - (scr v0).2) -
        ((scr v1).2 - (scr v0).2) * ((scr v2).1 - (scr v0).1) = 0 →
      process_face scr (v0 :: v1 :: v2 :: rest) es = es) := by
  refine ⟨?_, rfl, ?_⟩
  · show decide (0 < (x1 - x0) * (y2 - y0) - (y1 - y0) * (x2 - x0)) = true ↔ _
    exact decide_eq_true_iff
  · intro scr v0 v1 v2 rest es hcross
    have hvis : (is_face_visible_debug (scr v0).1 (scr v0).2 (scr v1).1 (scr v1).2
        (scr v2).1 (scr v2).2).1 = false := by
      show decide (0 < ((scr v1).1 - (scr v0).1) * ((scr v2).2 - (scr v0).2) -
        ((scr v1).2 - (scr v0).2) * ((scr v2).1 - (scr v0).1)) = false
      rw [hcross]
      rfl
    show (if (is_face_visible_debug (scr v0).1 (scr v0).2 (scr v1).1 (scr v1).2
        (scr v2).1 (scr v2).2).1 = true
      then insert_edges es (cyclic_pairs (v0 :: v1 :: v2 :: rest)) else es) = es
    rw [hvis]
    simp

/-- C1 witness: a degenerate face (all three projected vertices coincide,
cross product 0) is excluded and leaves the edge set empty. -/
theorem C1_culling_witness :
    process_face (fun _ => ((0 : Int), (0 : Int))) [0, 1, 2] [] = [] :=
  (C1_culling 0 0 0 0 0 0).2.2 (fun _ => ((0 : Int), (0 : Int))) 0 1 2 [] []
    (by norm_num)

/-- C2: inserting the same unordered pair twice, in either order, leaves
exactly one entry for that pair, and insertion is order-insensitive
(the pair is canonicalised with the smaller index first). -/
theorem C2_dedup_idempotent (s : List (Int × Int)) (v1 v2 : Int)
    (hlen : s.length < MAX_EDGE_SET)
    (hcount : s.count (canonical_pair v1 v2) ≤ 1) :
    ((add_edge_to_set (add_edge_to_set s v1 v2).1 v2 v1).1.count
        (canonical_pair v1 v2) = 1) ∧
    add_edge_to_set s v1 v2 = add_edge_to_set s v2 v1 := by
  refine ⟨?_, add_edge_to_set_comm s v1 v2⟩
  rw [add_edge_to_set_comm _ v2 v1]
  set p := canonical_pair v1 v2 with hp
  by_cases hmem : p ∈ s
  · have hone : s.count p = 1 := by
      have := List.count_pos_iff.mpr hmem
      omega
    have hfst : (add_edge_to_set s v1 v2).1 = s := by
      rw [add_edge_to_set_eq, if_neg (not_le.mpr hlen),
        if_pos ((any_beq_eq_true_iff_mem s p).mpr hmem)]
    rw [hfst, hfst]
    exact hone
  · have hzero : s.count p = 0 := List.count_eq_zero.mpr hmem
    have hfst : (add_edge_to_set s v1 v2).1 = s ++ [p] := by
      rw [add_edge_to_set_eq, if_neg (not_le.mpr hlen)]
      rw [if_neg]
      intro hc
      exact hmem ((any_beq_eq_true_iff_mem s p).mp hc)
    have hcnt1 : (s ++ [p]).count p = 1 := by
      rw [List.count_append, hzero]
      simp
    rw [hfst]
    by_cases hfull : MAX_EDGE_SET ≤ (s ++ [p]).length
    · rw [add_edge_to_set_eq, if_pos hfull]
      exact hcnt1
    · rw [add_edge_to_set_eq, if_neg hfull,
        if_pos ((any_beq_eq_true_iff_mem _ p).mpr (by simp))]
      exact hcnt1

/-- C2 witness: inserting the pair (2,1) and then (1,2) into the empty set
leaves exactly one entry, and both insertion orders agree. -/
theorem C2_dedup_idempotent_witness :
    ((add_edge_to_set (add_edge_to_set [] 2 1).1 1 2).1.count
        (canonical_pair 2 1) = 1) ∧
    add_edge_to_set [] 2 1 = add_edge_to_set [] 1 2 :=
  C2_dedup_idempotent [] 2 1 (by norm_num [MAX_EDGE_SET]) (by simp)

lemma insert_edges_length_le (ops : List (Int × Int)) (s : List (Int × Int))
    (hs : s.length ≤ MAX_EDGE_SET) :
    (insert_edges s ops).length ≤ MAX_EDGE_SET := by
  induction ops generalizing s with
  | nil => simpa [insert_edges]
  | cons op ops ih =>
    rw [insert_edges, List.foldl_cons]
    exact ih _ (add_edge_to_set_length_le s op.1 op.2 hs)

/-- C3: the edge set's size never exceeds `MAX_EDGE_SET` (256) under any
sequence of insertions; once the bound is reached an insertion returns the
set unchanged; and an insertion never modifies existing entries (the result
is always the original list, possibly with one pair appended). -/
theorem C3_capacity_bound (ops : List (Int × Int)) (s : List (Int × Int))
    (v1 v2 : Int) :
    (s.length ≤ MAX_EDGE_SET → (insert_edges s ops).length ≤ MAX_EDGE_SET) ∧
    (MAX_EDGE_SET ≤ s.length → (add_edge_to_set s v1 v2).1 = s) ∧
    (∃ t, (add_edge_to_set s v1 v2).1 = s ++ t) := by
  refine ⟨fun hs => insert_edges_length_le ops s hs,
    add_edge_to_set_full s v1 v2, ?_⟩
  rcases add_edge_to_set_fst s v1 v2 with h | h
  · exact ⟨[], by simpa using h⟩
  · exact ⟨[canonical_pair v1 v2], h⟩

/-- C3 witness: with the set already at capacity 256, a further insertion
leaves it unchanged, and inserting into it keeps the length at the bound. -/
theorem C3_capacity_bound_witness :
    ((insert_edges (List.replicate MAX_EDGE_SET ((0 : Int), (0 : Int)))
        [(1, 2)]).length ≤ MAX_EDGE_SET) ∧
    (add_edge_to_set (List.replicate MAX_EDGE_SET ((0 : Int), (0 : Int))) 1 2).1 =
      List.replicate MAX_EDGE_SET ((0 : Int), (0 : Int)) :=
  ⟨(C3_capacity_bound [(1, 2)] _ 1 2).1 (by simp),
   (C3_capacity_bound [] _ 1 2).2.1 (by simp)⟩

/-- C7: in the fallback rendering path, the drawn edges are exactly the
in-range edges in order and the logged edges are exactly the out-of-range
ones; every out-of-range edge is logged and not drawn, while processing of
the remaining edges continues (the loop never aborts). -/
theorem C7_fallback_skips_and_continues (vc : Int) (edges : List (Int × Int)) :
    ((draw_edges_fallback vc edges).1 =
        edges.filter (fun e => !(edge_out_of_range vc e))) ∧
    ((draw_edges_fallback vc edges).2 =
        edges.filter (fun e => edge_out_of_range vc e)) ∧
    (∀ e ∈ edges, edge_out_of_range vc e = true →
        e ∈ (draw_edges_fallback vc edges).2 ∧
        e ∉ (draw_edges_fallback vc edges).1) := by
  have h1 : (draw_edges_fallback vc edges).1 =
      edges.filter (fun e => !(edge_out_of_range vc e)) := by
    unfold draw_edges_fallback
    rw [draw_edges_fallback_aux]
    simp
  have h2 : (draw_edges_fallback vc edges).2 =
      edges.filter (fun e => edge_out_of_range vc e) := by
    unfold draw_edges_fallback
    rw [draw_edges_fallback_aux]
    simp
  refine ⟨h1, h2, fun e he hoob => ⟨?_, ?_⟩⟩
  · rw [h2]
    exact List.mem_filter.mpr ⟨he, hoob⟩
  · rw [h1]
    intro hmem
    have := (List.mem_filter.mp hmem).2
    simp [hoob] at this

/-- C7 witness: for a mesh with 4 vertices, the edge (0,4) — one index
exactly equal to the vertex count — is logged and not drawn, while the
in-range edge (0,1) after it is still drawn. -/
theorem C7_fallback_witness :
    ((0, 4) ∈ (draw_edges_fallback 4 [(0, 4), (0, 1)]).2 ∧
     (0, 4) ∉ (draw_edges_fallback 4 [(0, 4), (0, 1)]).1) ∧
    (draw_edges_fallback 4 [(0, 4), (0, 1)]).1 = [(0, 1)] :=
  ⟨(C7_fallback_skips_and_continues 4 [(0, 4), (0, 1)]).2.2 (0, 4)
      (by simp) (by decide),
   by rw [(C7_fallback_skips_and_continues 4 [(0, 4), (0, 1)]).1]; decide⟩

/-- C8: `simple_rand` follows the linear-congruential recurrence
`seed = (seed*1103515245 + 12345) mod 2^31` (the wrapping multiply-add
masked with `0x7fffffff`), always yielding a value in `[0, 2^31)`, and
`random_pentacube` reduces it `mod PENTACUBE_COUNT`, a valid mesh index
in `[0, 29)`. -/
theorem C8_lcg_and_mesh_pick (seed : Nat) :
    simple_rand seed = (seed * 1103515245 + 12345) % 2 ^ 31 ∧
    simple_rand seed < 2 ^ 31 ∧
    random_pentacube seed = simple_rand seed % PENTACUBE_COUNT ∧
    random_pentacube seed < PENTACUBE_COUNT ∧
    PENTACUBE_COUNT = 29 := by
  have hmask : simple_rand seed = (seed * 1103515245 + 12345) % 2 ^ 31 := by
    unfold simple_rand
    have h7 : (0x7fffffff : Nat) = 2 ^ 31 - 1 := by norm_num
    rw [h7, Nat.and_pow_two_sub_one_eq_mod]
    exact Nat.mod_mod_of_dvd _ (by norm_num)
  refine ⟨hmask, ?_, rfl, ?_, rfl⟩
  · rw [hmask]
    exact Nat.mod_lt _ (by positivity)
  · exact Nat.mod_lt _ (by norm_num [PENTACUBE_COUNT])

/-- C10: the fallback bounds check rejects an edge iff one of its indices
is ≥ vertex_count; the negative index −1 passes the check (the mesh having
8 vertices), the edge is drawn — its index used to address the vertex
array — yet −1 is not a valid vertex index. -/
theorem C10_guard_misses_negative :
    (∀ (vc : Int) (e : Int × Int),
        edge_out_of_range vc e = true ↔ (vc ≤ e.1 ∨ vc ≤ e.2)) ∧
    edge_out_of_range 8 (-1, 0) = false ∧
    (draw_edges_fallback 8 [(-1, 0)]).1 = [(-1, 0)] ∧
    ¬ valid_vertex_index 8 (-1) := by
  refine ⟨?_, by decide, by decide, by decide⟩
  intro vc e
  simp [edge_out_of_range]

-- Projection chains through a whole tick.

lemma update_x_offset_eq (s : AnimState) :
    (update_animation_state s).x_offset = (offset_step (dir_step s)).x_offset := by
  unfold update_animation_state
  rw [(axis_step_fields _).1, (morph_progress_step_fields _).1,
    (morph_trigger_step_fields _).1, (z_step_fields _).2.2.1]

lemma update_x_direction_eq (s : AnimState) :
    (update_animation_state s).x_direction = (offset_step (dir_step s)).x_direction := by
  unfold update_animation_state
  rw [(axis_step_fields _).2.1, (morph_progress_step_fields _).2.1,
    (morph_trigger_step_fields _).2.1, (z_step_fields _).2.2.2.1]

lemma update_dcc_eq (s : AnimState) :
    (update_animation_state s).direction_change_counter =
      (dir_step s).direction_change_counter := by
  unfold update_animation_state
  rw [(axis_step_fields _).2.2.1, (morph_progress_step_fields _).2.2.1,
    (morph_trigger_step_fields _).2.2.1, (z_step_fields _).1, (offset_step_fields _).1]

lemma offset_step_bounds (s : AnimState) :
    -15 ≤ (offset_step s).x_offset ∧ (offset_step s).x_offset ≤ 15 := by
  by_cases h1 : 15 < s.x_offset + s.x_direction * (3 / 5)
  · rw [offset_step_hi s h1]
    refine ⟨?_, ?_⟩ <;> norm_num
  · by_cases h2 : s.x_offset + s.x_direction * (3 / 5) < -15
    · rw [offset_step_lo s h2]
      refine ⟨?_, ?_⟩ <;> norm_num
    · rw [offset_step_mid s (by linarith) (by linarith)]
      refine ⟨?_, ?_⟩
      · show -15 ≤ s.x_offset + s.x_direction * (3 / 5)
        linarith
      · show s.x_offset + s.x_direction * (3 / 5) ≤ 15
        linarith

lemma pre_steps_morph_fields (s : AnimState) :
    (z_step (offset_step (dir_step s))).morphing_progress = s.morphing_progress ∧
    (z_step (offset_step (dir_step s))).is_morphing = s.is_morphing := by
  rw [(z_step_fields _).2.2.2.2.1, (offset_step_fields _).2.2.1, (dir_step_fields _).2.2.1,
    (z_step_fields _).2.2.2.2.2, (offset_step_fields _).2.2.2, (dir_step_fields _).2.2.2]
  exact ⟨rfl, rfl⟩

lemma update_morph_of_morphing (s : AnimState) (hm : s.is_morphing = true) :
    (update_animation_state s).morphing_progress =
      (morph_progress_step (z_step (offset_step (dir_step s)))).morphing_progress ∧
    (update_animation_state s).is_morphing =
      (morph_progress_step (z_step (offset_step (dir_step s)))).is_morphing := by
  unfold update_animation_state
  rw [morph_trigger_step_quiet _ (by
    rintro ⟨-, hfalse⟩
    rw [(pre_steps_morph_fields s).2, hm] at hfalse
    simp at hfalse)]
  exact ⟨(axis_step_fields _).2.2.2.1, (axis_step_fields _).2.2.2.2.1⟩

/-- C4 (amended): after every animation-state update the lateral offset lies
in [−15, 15]; an update that drives the raw offset past a bound clamps it to
that bound and forces the direction sign back inward.  (The separate startup
initialisation of the offset from the initial mesh's centroid does not
enforce this bound; see the counterexample.) -/
theorem C4_offset_clamped (s : AnimState) :
    (-15 ≤ (update_animation_state s).x_offset ∧
      (update_animation_state s).x_offset ≤ 15) ∧
    (15 < (dir_step s).x_offset + (dir_step s).x_direction * (3 / 5) →
      (update_animation_state s).x_offset = 15 ∧
      (update_animation_state s).x_direction = -1) ∧
    ((dir_step s).x_offset + (dir_step s).x_direction * (3 / 5) < -15 →
      (update_animation_state s).x_offset = -15 ∧
      (update_animation_state s).x_direction = 1) := by
  refine ⟨?_, ?_, ?_⟩
  · rw [update_x_offset_eq]
    exact offset_step_bounds _
  · intro h
    rw [update_x_offset_eq, update_x_direction_eq, offset_step_hi _ h]
    exact ⟨rfl, rfl⟩
  · intro h
    rw [update_x_offset_eq, update_x_direction_eq, offset_step_lo _ h]
    exact ⟨rfl, rfl⟩

/-- C4 witness: one tick from the initial state stays in bounds, and a tick
started at offset 15 moving outward clamps to 15 and turns the direction
inward. -/
theorem C4_offset_clamped_witness :
    (-15 ≤ (update_animation_state initial_state).x_offset ∧
      (update_animation_state initial_state).x_offset ≤ 15) ∧
    ((update_animation_state { initial_state with x_offset := 15 }).x_offset = 15 ∧
     (update_animation_state { initial_state with x_offset := 15 }).x_direction = -1) :=
  ⟨(C4_offset_clamped initial_state).1,
   (C4_offset_clamped _).2.1 (by
      rw [dir_step_quiet _ (by norm_num [initial_state])]
      show (15 : ℚ) < 15 + 1 * (3 / 5)
      norm_num)⟩

/-- C4 counterexample: the startup state for the straight pentacube (a
1×1×5 cuboid along x, centroid x = 2.5) has lateral offset
−2.5·8 = −20, outside [−15, 15]: the claimed invariant fails in the state
established at startup. -/
theorem C4_startup_exceeds_bound :
    ¬ (-15 ≤ (startup_state I_pentacube_vertices).x_offset ∧
       (startup_state I_pentacube_vertices).x_offset ≤ 15) := by
  have hx : (startup_state I_pentacube_vertices).x_offset = -20 := by
    show startup_x_offset I_pentacube_vertices = -20
    unfold startup_x_offset get_pentacube_center_x I_pentacube_vertices BASE_SIZE
    norm_num
  rw [hx]
  norm_num

/-- C5: while morphing, progress never decreases across a tick; once the
increment reaches or passes 1.0 the progress is clamped to exactly 1 and the
morphing flag is cleared; and the morph-trigger step (depth above 180 while
not morphing) sets progress to exactly 0 as it enters the morphing state. -/
theorem C5_morph_progress (s : AnimState) :
    (s.is_morphing = true → s.morphing_progress ≤ 1 →
       s.morphing_progress ≤ (update_animation_state s).morphing_progress) ∧
    (s.is_morphing = true → 1 ≤ s.morphing_progress + 1 / 20 →
       (update_animation_state s).morphing_progress = 1 ∧
       (update_animation_state s).is_morphing = false) ∧
    (s.is_morphing = false → 180 < s.z_position →
       (morph_trigger_step s).morphing_progress = 0 ∧
       (morph_trigger_step s).is_morphing = true) := by
  have hpre := pre_steps_morph_fields s
  refine ⟨?_, ?_, ?_⟩
  · intro hm hle
    rw [(update_morph_of_morphing s hm).1]
    set t := z_step (offset_step (dir_step s)) with ht
    have htm : t.is_morphing = true := by rw [hpre.2, hm]
    by_cases hcl : 1 ≤ t.morphing_progress + 1 / 20
    · rw [morph_progress_step_clamp t htm hcl]
      show s.morphing_progress ≤ 1
      exact hle
    · rw [morph_progress_step_advance t htm (by linarith)]
      show s.morphing_progress ≤ t.morphing_progress + 1 / 20
      rw [hpre.1]
      linarith
  · intro hm hge
    have h := update_morph_of_morphing s hm
    set t := z_step (offset_step (dir_step s)) with ht
    have htm : t.is_morphing = true := by rw [hpre.2, hm]
    have hcl : 1 ≤ t.morphing_progress + 1 / 20 := by
      rw [hpre.1]
      exact hge
    rw [h.1, h.2, morph_progress_step_clamp t htm hcl]
    exact ⟨rfl, rfl⟩
  · intro hm hz
    rw [morph_trigger_step_fire s hz hm]
    exact ⟨rfl, rfl⟩

/-- C5 witness: a mid-morph state at progress 1/2 does not lose progress in
one tick, and a non-morphing state at depth 200 enters morphing with
progress exactly 0 in the trigger step. -/
theorem C5_morph_progress_witness :
    ((1 : ℚ) / 2 ≤ (update_animation_state
        { initial_state with is_morphing := true, morphing_progress := 1/2 }).morphing_progress) ∧
    ((morph_trigger_step { initial_state with z_position := 200 }).morphing_progress = 0 ∧
     (morph_trigger_step { initial_state with z_position := 200 }).is_morphing = true) :=
  ⟨(C5_morph_progress _).1 rfl (by
      show (1 : ℚ) / 2 ≤ 1
      norm_num),
   (C5_morph_progress _).2.2 rfl (by
      show (180 : ℚ) < 200
      norm_num)⟩

/-- C9: while no morph has been triggered, a tick keeps morphing progress at
exactly 0 with the morphing flag down; the startup state starts that way;
and at progress 0 the per-frame opacity is 0, so every edge of the visible
edge set is emitted fully transparent. -/
theorem C9_invisible_before_first_morph (s : AnimState) :
    (s.is_morphing = false → s.morphing_progress = 0 →
      (z_step (offset_step (dir_step s))).z_position ≤ 180 →
      (update_animation_state s).morphing_progress = 0 ∧
      (update_animation_state s).is_morphing = false) ∧
    (∀ verts, (startup_state verts).morphing_progress = 0 ∧
      (startup_state verts).is_morphing = false) ∧
    frame_opacity 0 = 0 ∧
    (∀ (scr : Int → Int × Int) (es : List (Int × Int)),
      ∀ l ∈ draw_visible_edges scr es 0, l.2 = 0) := by
  have hop : frame_opacity 0 = 0 := by
    norm_num [frame_opacity, LV_OPA_COVER]
  refine ⟨?_, fun verts => ⟨rfl, rfl⟩, hop, ?_⟩
  · intro hm hp hz
    have hpre := pre_steps_morph_fields s
    unfold update_animation_state
    rw [morph_trigger_step_quiet _ (by
      rintro ⟨hz', -⟩
      exact absurd hz' (not_lt.mpr hz))]
    rw [morph_progress_step_quiet _ (by rw [hpre.2]; exact hm)]
    rw [(axis_step_fields _).2.2.2.1, (axis_step_fields _).2.2.2.2.1]
    rw [hpre.1, hpre.2]
    exact ⟨hp, hm⟩
  · intro scr es l hl
    unfold draw_visible_edges at hl
    rw [List.mem_map] at hl
    obtain ⟨e, -, rfl⟩ := hl
    exact hop

/-- C9 witness: the very first tick from the initial state keeps morphing
progress at exactly 0 and the morphing flag down. -/
theorem C9_invisible_witness :
    (update_animation_state initial_state).morphing_progress = 0 ∧
    (update_animation_state initial_state).is_morphing = false :=
  (C9_invisible_before_first_morph initial_state).1 rfl rfl (by
    rw [dir_step_quiet _ (by norm_num [initial_state])]
    rw [offset_step_mid _
      (by
        show (0 : ℚ) + 1 * (3 / 5) ≤ 15
        norm_num)
      (by
        show (-15 : ℚ) ≤ 0 + 1 * (3 / 5)
        norm_num)]
    rw [z_step_eq]
    show (|(0 : ℚ) + 1 * (3 / 5)| / 15) * (|(0 : ℚ) + 1 * (3 / 5)| / 15) * 200 ≤ 180
    rw [abs_of_nonneg (by norm_num)]
    norm_num)

-- Axis-counter preservation through the pre-axis steps, and the seed of a
-- tick whose trigger and axis blocks both stay quiet.

lemma offset_step_axis_counter (s : AnimState) :
    (offset_step s).axis_change_counter = s.axis_change_counter := by
  by_cases h1 : 15 < s.x_offset + s.x_direction * (3 / 5)
  · rw [offset_step_hi s h1]
  · by_cases h2 : s.x_offset + s.x_direction * (3 / 5) < -15
    · rw [offset_step_lo s h2]
    · rw [offset_step_mid s (by linarith) (by linarith)]

lemma dir_step_axis_counter (s : AnimState) :
    (dir_step s).axis_change_counter = s.axis_change_counter := by
  by_cases h : 8 < s.direction_change_counter + 1
  · rw [dir_step_fire s h]
  · rw [dir_step_quiet s (by omega)]

lemma morph_progress_step_axis_counter (s : AnimState) :
    (morph_progress_step s).axis_change_counter = s.axis_change_counter := by
  cases h : s.is_morphing
  · rw [morph_progress_step_quiet s h]
  · by_cases h2 : 1 ≤ s.morphing_progress + 1 / 20
    · rw [morph_progress_step_clamp s h h2]
    · rw [morph_progress_step_advance s h (by linarith)]

lemma update_seed_quiet (s : AnimState)
    (hz : (z_step (offset_step (dir_step s))).z_position ≤ 180)
    (ha : s.axis_change_counter + 1 ≤ 16) :
    (update_animation_state s).seed = (dir_step s).seed := by
  unfold update_animation_state
  rw [morph_trigger_step_quiet _ (by
    rintro ⟨hz', -⟩
    exact absurd hz' (not_lt.mpr hz))]
  rw [axis_step_quiet _ (by
    rw [morph_progress_step_axis_counter]
    show (z_step (offset_step (dir_step s))).axis_change_counter + 1 ≤ 16
    rw [show (z_step (offset_step (dir_step s))).axis_change_counter =
        (offset_step (dir_step s)).axis_change_counter from rfl,
      offset_step_axis_counter, dir_step_axis_counter]
    exact ha)]
  show (morph_progress_step (z_step (offset_step (dir_step s)))).seed = (dir_step s).seed
  rw [(morph_progress_step_fields _).2.2.2.1,
    (z_step_fields _).2.1, (offset_step_fields _).2.1]

/-- C6 (amended): the direction-reversal counter increments every tick; the
1-in-3 pseudo-random draw (`simple_rand() % 3 == 0`) and the counter reset
happen only on the tick whose incremented counter exceeds 8 — i.e. every 9th
tick, not every 8th. -/
theorem C6_reversal_every_ninth_tick (s : AnimState) :
    ((update_animation_state s).direction_change_counter =
        (dir_step s).direction_change_counter) ∧
    (s.direction_change_counter + 1 ≤ 8 →
       dir_step s = { s with
         direction_change_counter := s.direction_change_counter + 1 }) ∧
    (8 < s.direction_change_counter + 1 →
       dir_step s = { s with
         seed := simple_rand s.seed
         x_direction := if simple_rand s.seed % 3 = 0 then -s.x_direction
                        else s.x_direction
         direction_change_counter := 0 }) :=
  ⟨update_dcc_eq s, dir_step_quiet s, dir_step_fire s⟩

/-- C6 witness: from the initial state the first tick only increments the
counter, while a state whose counter already reached 8 performs the draw and
resets the counter. -/
theorem C6_reversal_witness :
    dir_step initial_state =
      { initial_state with direction_change_counter := 1 } ∧
    dir_step { initial_state with direction_change_counter := 8 } =
      { initial_state with
          seed := simple_rand initial_state.seed
          x_direction := if simple_rand initial_state.seed % 3 = 0
                         then -initial_state.x_direction
                         else initial_state.x_direction
          direction_change_counter := 0 } :=
  ⟨(C6_reversal_every_ninth_tick initial_state).2.1 (by norm_num [initial_state]),
   (C6_reversal_every_ninth_tick _).2.2 (by norm_num [initial_state])⟩

-- The ninth tick from the initial state: the direction-reversal draw fires
-- (the incremented counter reaches 9 > 8), consuming one generator value.

lemma tick9_state :
    update_animation_state^[9] initial_state =
      { initial_state with
          seed := 1406932606
          x_offset := 27 / 5
          z_position := (27 / 5 / 15) * (27 / 5 / 15) * 200
          direction_change_counter := 0
          axis_change_counter := 9 } := by
  have hsr : simple_rand 12345 = 1406932606 := by decide
  rw [show (9 : ℕ) = 8 + 1 from rfl, Function.iterate_succ_apply',
    iterate_quiet 8 (by omega)]
  norm_num [initial_state]
  unfold update_animation_state
  rw [dir_step_fire _ (by norm_num)]
  rw [hsr]
  norm_num
  rw [offset_step_mid _ (by norm_num) (by norm_num)]
  norm_num
  rw [z_step_eq]
  rw [abs_of_nonneg (show (0 : ℚ) ≤ 27 / 5 by norm_num)]
  rw [morph_trigger_step_quiet _ (by rintro ⟨hz, -⟩; norm_num at hz)]
  rw [morph_progress_step_quiet _ (by rfl)]
  rw [axis_step_quiet _ (by norm_num)]
  refine AnimState.ext ?_ ?_ ?_ ?_ ?_ ?_ ?_ ?_ ?_ ?_ ?_ ?_ <;> norm_num

/-- C6 counterexample: starting from the initial state (counter 0), the
first 8 ticks never consult the random draw and never reset the counter —
after 8 ticks the counter is 8, the seed untouched and the direction
unchanged — and the draw actually happens on the 9th tick, which resets the
counter and advances the seed: the reversal draw occurs every 9 ticks, not
every 8. -/
theorem C6_no_draw_on_eighth_tick :
    (update_animation_state^[8] initial_state).direction_change_counter = 8 ∧
    (update_animation_state^[8] initial_state).seed = initial_state.seed ∧
    (update_animation_state^[8] initial_state).x_direction = initial_state.x_direction ∧
    (update_animation_state^[9] initial_state).direction_change_counter = 0 ∧
    (update_animation_state^[9] initial_state).seed = simple_rand initial_state.seed := by
  have h8 := iterate_quiet 8 (by omega)
  have h9 := tick9_state
  exact ⟨by rw [h8]; norm_num, by rw [h8], by rw [h8], by rw [h9], by rw [h9]; decide⟩
